import Mathlib

/-!
Shallow embedding of the ADVVOC backend (Express + MongoDB social-media
server, several near-duplicate variants).  Each request handler becomes a
pure Lean function from the relevant database state and request data to the
updated state and a structured response.  Sources are cited next to each
definition:
  * `src/server.js` — the main variant (three concatenated revisions;
    line numbers refer to the concatenated file),
  * `src/unnamed/part_000`, `src/unnamed/part_001` — older variants,
  * `src/models/DM.js`, `src/unnamed/part_002` (User/Post models).
MongoDB ids are modelled as `String`; `Date.now()` timestamps as `Nat`
passed in by the caller; an absent request-body field as `""` (matching JS
truthiness checks such as `if (!username)`); the authenticated session as
`Option String` (the session claim's username, `req.session.user`).
-/

namespace ADVVOC

/-- JavaScript whitespace as used by `String.prototype.trim` (the subset
relevant to the handlers: space, tab, newline, carriage return). -/
def isJsWhitespace (c : Char) : Bool :=
  c == ' ' || c == '\t' || c == '\n' || c == '\r'

/-- Model of JavaScript `s.trim()`: strip leading and trailing whitespace. -/
def jsTrim (s : String) : String :=
  String.mk (((s.data.dropWhile isJsWhitespace).reverse.dropWhile isJsWhitespace).reverse)

/-- Model of `bcrypt.hash(password, 10)` (external collaborator): an
injective one-way function, abstracted as a tagged string.  The salt is
abstracted away; what the proofs use is that `bcryptCompare p (bcryptHash p)`
holds and that hashes of different passwords do not compare equal. -/
def bcryptHash (password : String) : String :=
  "bcrypt$2a$10$" ++ password

/-- Model of `bcrypt.compare(password, stored)` (external collaborator). -/
def bcryptCompare (password stored : String) : Bool :=
  stored == bcryptHash password

/-- User record, `src/unnamed/part_002` (models/User.js): username plus the
stored bcrypt hash (phone/email/profilePic omitted — no claim touches them). -/
structure User where
  username : String
  password : String
deriving Repr, DecidableEq

/-- Result of an auth route: the updated users collection, the JSON
`success` flag, the JSON `message` field, and the session user written to
`req.session.user` (if any). -/
structure AuthResult where
  db : List User
  success : Bool
  message : Option String
  sessionUser : Option String
deriving Repr, DecidableEq

/-- `POST /signup`, src/server.js:83-106: reject missing fields, reject an
existing username, otherwise hash the password, create the user and set the
session. -/
def signup (db : List User) (username password : String) : AuthResult :=
  if username == "" || password == "" then
    ⟨db, false, some "Missing fields", none⟩
  else
    match db.find? (fun u => u.username == username) with
    | some _ => ⟨db, false, some "Username already taken", none⟩
    | none =>
      ⟨db ++ [⟨username, bcryptHash password⟩], true, none, some username⟩

/-- `POST /signup`, src/unnamed/part_000:97-114: rejects blank fields but
performs NO uniqueness check — it hashes and saves unconditionally, and does
not set the session. -/
def signupP0 (db : List User) (username password : String) : AuthResult :=
  if jsTrim username == "" || jsTrim password == "" then
    ⟨db, false, some "Invalid input", none⟩
  else
    ⟨db ++ [⟨username, bcryptHash password⟩], true, none, none⟩

/-- `POST /login`, src/server.js:108-125 (main variant): the same message
"Invalid username or password" is returned both for an unknown username and
for a wrong password. -/
def login (db : List User) (username password : String) : AuthResult :=
  if username == "" || password == "" then
    ⟨db, false, some "Missing fields", none⟩
  else
    match db.find? (fun u => u.username == username) with
    | none => ⟨db, false, some "Invalid username or password", none⟩
    | some u =>
      if bcryptCompare password u.password then
        ⟨db, true, none, some u.username⟩
      else
        ⟨db, false, some "Invalid username or password", none⟩

/-- `POST /login`, src/server.js:455-484 (second concatenated revision; the
same shape appears in src/unnamed/part_001:106-125): distinct messages
"Invalid username" vs "Invalid password". -/
def loginV2 (db : List User) (username password : String) : AuthResult :=
  if username == "" || password == "" then
    ⟨db, false, some "Missing fields", none⟩
  else
    match db.find? (fun u => u.username == username) with
    | none => ⟨db, false, some "Invalid username", none⟩
    | some u =>
      if bcryptCompare password u.password then
        ⟨db, true, none, some u.username⟩
      else
        ⟨db, false, some "Invalid password", none⟩

/-- Comment subdocument of a business post, src/models/DM.js companion file
(models/BusinessPost.js): `{user, text, createdAt}`. -/
structure Comment where
  user : String
  text : String
  createdAt : Nat
deriving Repr, DecidableEq

/-- Business post document (models/BusinessPost.js): id, owner username,
media URL, caption, like counter, ordered comment log. -/
structure BusinessPost where
  id : String
  user : String
  url : String
  caption : String
  likes : Nat
  comments : List Comment
deriving Repr, DecidableEq

/-- Response of the like route. -/
inductive LikeResult
  /-- `{success:true, likes}` -/
  | ok (likes : Nat)
  /-- HTTP 404 `{success:false, message:"Post not found"}` -/
  | notFound
deriving Repr, DecidableEq

/-- `POST /business/like/:postId`, src/server.js:239-251: `findById`, 404 if
absent, otherwise `post.likes = (post.likes||0)+1; post.save()` — a
fetch-then-save read-modify-write, NOT an atomic storage-level increment
(its racy two-request semantics is modelled separately by `raceRun`). -/
def likeBiz (db : List BusinessPost) (postId : String) :
    List BusinessPost × LikeResult :=
  match db.find? (fun p => p.id == postId) with
  | none => (db, LikeResult.notFound)
  | some post =>
    let post' := { post with likes := post.likes + 1 }
    (db.map (fun p => if p.id == postId then post' else p),
     LikeResult.ok post'.likes)

/-- Image document of src/unnamed/part_000 (its Post analogue): url, mime
type, like counter, comment strings. -/
structure Image where
  id : String
  url : String
  type : String
  likes : Nat
  comments : List String
deriving Repr, DecidableEq

/-- `POST /like/:id`, src/unnamed/part_000:188-191:
`Image.findByIdAndUpdate(id, {$inc:{likes:1}})` followed unconditionally by
`res.json({success:true})` — atomic at the storage layer, but success is
reported even when no document matches the id. -/
def likeP0 (db : List Image) (id : String) : List Image × Bool :=
  (db.map (fun img => if img.id == id then { img with likes := img.likes + 1 } else img),
   true)

/-- Two concurrent executions of the `likeBiz` body (src/server.js:241-245)
against one post: the shared stored counter plus each request's in-memory
copy of the fetched document (`post.likes` after `findById`). -/
structure LikeRace where
  likes : Nat
  read1 : Option Nat
  read2 : Option Nat
deriving Repr, DecidableEq

/-- Atomic storage events of the two racing like requests: request i either
fetches the document (`findById`, copying the stored counter) or saves its
incremented copy (`post.save()`). -/
inductive RaceEv
  | read1
  | read2
  | save1
  | save2
deriving Repr, DecidableEq

/-- One storage event of the fetch-then-save like handler. -/
def raceStep (s : LikeRace) : RaceEv → LikeRace
  | RaceEv.read1 => { s with read1 := some s.likes }
  | RaceEv.read2 => { s with read2 := some s.likes }
  | RaceEv.save1 =>
    match s.read1 with
    | some v => { s with likes := v + 1 }
    | none => s
  | RaceEv.save2 =>
    match s.read2 with
    | some v => { s with likes := v + 1 }
    | none => s

/-- Run an interleaving (schedule) of the two requests' storage events. -/
def raceRun (s : LikeRace) : List RaceEv → LikeRace
  | [] => s
  | e :: es => raceRun (raceStep s e) es

/-- The subsequence of a schedule belonging to request 1. -/
def thread1Events (es : List RaceEv) : List RaceEv :=
  es.filter (fun e => e == RaceEv.read1 || e == RaceEv.save1)

/-- The subsequence of a schedule belonging to request 2. -/
def thread2Events (es : List RaceEv) : List RaceEv :=
  es.filter (fun e => e == RaceEv.read2 || e == RaceEv.save2)

/-- Result shape `{url, contentType}` produced by the external media-upload
collaborator (multer + Cloudinary) before the route body runs. -/
structure UploadedFile where
  path : String
  mimetype : String
deriving Repr, DecidableEq

/-- Ordinary post document (src/unnamed/part_003, models/Post.js), fields
the upload route writes. -/
structure Post where
  user : String
  url : String
  caption : String
  type : String
deriving Repr, DecidableEq

/-- Result of an upload route over a store of `α` documents. -/
structure UploadResult (α : Type) where
  db : List α
  success : Bool
  message : Option String
deriving Repr, DecidableEq

/-- `POST /upload`, src/server.js:161-182: the session check comes first
(even though the collaborator already accepted the file), then the file
check, then `Post.create` stamped with the session username; mime types
starting with "video" are classified as video, all else image. -/
def uploadMain (db : List Post) (sessionUser : Option String)
    (file : Option UploadedFile) (caption : String) : UploadResult Post :=
  match sessionUser with
  | none => ⟨db, false, some "Not logged in"⟩
  | some uname =>
    match file with
    | none => ⟨db, false, some "No file uploaded"⟩
    | some f =>
      let fileType := if f.mimetype.startsWith "video" then "video" else "image"
      ⟨db ++ [⟨uname, f.path, caption, fileType⟩], true, none⟩

/-- `POST /upload`, src/unnamed/part_000:155-175: NO session check at all —
any request carrying a file creates an Image record (the session argument is
deliberately present but unread, mirroring the handler).  The Mongo-assigned
`_id` is abstracted as `""`. -/
def uploadP0 (db : List Image) (sessionUser : Option String)
    (file : Option UploadedFile) : UploadResult Image :=
  match file with
  | none => ⟨db, false, some "Upload failed"⟩
  | some f =>
    if f.path == "" then ⟨db, false, some "Upload failed"⟩
    else ⟨db ++ [⟨"", f.path, f.mimetype, 0, []⟩], true, none⟩

/-- Response of the business comment route. -/
inductive CommentResult
  /-- `{success:true, comments}` — the full updated comment sequence. -/
  | ok (comments : List Comment)
  /-- `{success:false, message:"Not logged in"}` -/
  | notLoggedIn
  /-- `{success:false, message:"Empty comment"}` -/
  | emptyComment
  /-- HTTP 404 `{success:false, message:"Post not found"}` -/
  | notFound
deriving Repr, DecidableEq

/-- `POST /business/comments/:postId`, src/server.js:267-284: session check,
then `if (!text || !text.trim())` → "Empty comment", then `findById` with
404 on absence, then push `{user: session username, text, createdAt}` and
save, returning the updated comment list. -/
def addCommentBiz (db : List BusinessPost) (sessionUser : Option String)
    (postId text : String) (now : Nat) : List BusinessPost × CommentResult :=
  match sessionUser with
  | none => (db, CommentResult.notLoggedIn)
  | some uname =>
    if text == "" || jsTrim text == "" then (db, CommentResult.emptyComment)
    else
      match db.find? (fun p => p.id == postId) with
      | none => (db, CommentResult.notFound)
      | some post =>
        let post' := { post with comments := post.comments ++ [⟨uname, text, now⟩] }
        (db.map (fun p => if p.id == postId then post' else p),
         CommentResult.ok post'.comments)

/-- Comment subdocument pushed by src/unnamed/part_001:199-202: only
`{user, text}` — no timestamp. -/
structure Comment1 where
  user : String
  text : String
deriving Repr, DecidableEq

/-- Post document of src/unnamed/part_001 / part_003 (models/Post.js),
fields relevant to the comment route. -/
structure Post1 where
  id : String
  user : String
  caption : String
  type : String
  url : String
  likes : Nat
  comments : List Comment1
deriving Repr, DecidableEq

/-- Response of the part_001 comment route. -/
inductive CommentResult1
  /-- `{success:true, comments}` -/
  | ok (comments : List Comment1)
  /-- `{success:false, message:"Not logged in"}` -/
  | notLoggedIn
  /-- catch branch `{success:false}` (e.g. TypeError on a null post) -/
  | failed
deriving Repr, DecidableEq

/-- `POST /comment/:id`, src/unnamed/part_001:193-214: session check but NO
blank-text validation; `findById` then an unconditional
`post.comments.push({user, text})` (a null post throws and lands in the
catch branch). -/
def commentP1 (db : List Post1) (sessionUser : Option String)
    (postId text : String) : List Post1 × CommentResult1 :=
  match sessionUser with
  | none => (db, CommentResult1.notLoggedIn)
  | some uname =>
    match db.find? (fun p => p.id == postId) with
    | none => (db, CommentResult1.failed)
    | some post =>
      let post' := { post with comments := post.comments ++ [⟨uname, text⟩] }
      (db.map (fun p => if p.id == postId then post' else p),
       CommentResult1.ok post'.comments)

/-- Direct message document, src/models/DM.js:3-8:
`{from, to, message, timestamp}`. -/
structure DMsg where
  «from» : String
  «to» : String
  message : String
  timestamp : Nat
deriving Repr, DecidableEq

/-- Response of the DM send route. -/
inductive SendResult
  /-- `{success:true}` -/
  | ok
  /-- `{success:false, message:"Not logged in"}` -/
  | notLoggedIn
  /-- `{success:false, message:"Message empty"}` -/
  | messageEmpty
deriving Repr, DecidableEq

/-- `POST /dm/:user1/:user2`, src/server.js:305-323: requires a session,
rejects blank messages, then creates `{from: session username,
to: req.params.user2, message, timestamp}`.  The `:user1` path parameter is
never read by the handler body — the argument is present but unused. -/
def sendDM (db : List DMsg) (sessionUser : Option String)
    (user1 user2 : String) (message : String) (now : Nat) :
    List DMsg × SendResult :=
  match sessionUser with
  | none => (db, SendResult.notLoggedIn)
  | some uname =>
    if message == "" || jsTrim message == "" then (db, SendResult.messageEmpty)
    else (db ++ [⟨uname, user2, message, now⟩], SendResult.ok)

/-- The `$or` filter of `GET /dm/:user1/:user2`, src/server.js:292-296:
`{from:user1,to:user2}` or `{from:user2,to:user1}`. -/
def dmMatches (user1 user2 : String) (m : DMsg) : Bool :=
  (m.«from» == user1 && m.«to» == user2) || (m.«from» == user2 && m.«to» == user1)

/-- Insert a message into a timestamp-ascending list (model of the store's
`sort({timestamp: 1})`). -/
def insertByTimestamp (m : DMsg) : List DMsg → List DMsg
  | [] => [m]
  | x :: xs =>
    if m.timestamp < x.timestamp then m :: x :: xs
    else x :: insertByTimestamp m xs

/-- Sort a message list ascending by timestamp. -/
def sortByTimestamp : List DMsg → List DMsg
  | [] => []
  | m :: ms => insertByTimestamp m (sortByTimestamp ms)

/-- `GET /dm/:user1/:user2`, src/server.js:289-303: requires some session
(`none` models the "Not logged in" rejection), then returns the messages
matching the pair in either direction, sorted ascending by timestamp. -/
def dmHistory (db : List DMsg) (sessionUser : Option String)
    (user1 user2 : String) : Option (List DMsg) :=
  match sessionUser with
  | none => none
  | some _ => some (sortByTimestamp (db.filter (dmMatches user1 user2)))

/-- Ordering predicate "timestamp ascending" on messages. -/
def tsLe (x y : DMsg) : Prop := x.timestamp ≤ y.timestamp

/-! ### Concrete fixtures used by the closed theorems -/

/-- A business post with no likes and no comments. -/
def c1post : BusinessPost := ⟨"p1", "alice", "u1", "", 0, []⟩

/-- A users collection holding one user "alice" with the hash of "pw1". -/
def aliceDb : List User := [⟨"alice", bcryptHash "pw1"⟩]

/-- An image record, present while a like for a different id arrives. -/
def c3img : Image := ⟨"p1", "u1", "image/png", 0, []⟩

/-- A file reference accepted by the media-upload collaborator. -/
def mediaFile : UploadedFile := ⟨"https://res.cloudinary.example/img1.png", "image/png"⟩

/-- A business post that already carries one comment. -/
def bizPost : BusinessPost := ⟨"p1", "bob", "u1", "", 0, [⟨"bob", "first", 1⟩]⟩

/-- The part_001 post corresponding to `bizPost`. -/
def p1Post : Post1 := ⟨"p1", "bob", "", "image", "u1", 0, [⟨"bob", "first"⟩]⟩

/-- The interleaving read1, read2, save1, save2 of two like requests. -/
def lostUpdateSchedule : List RaceEv :=
  [RaceEv.read1, RaceEv.read2, RaceEv.save1, RaceEv.save2]

/-! ### Claim theorems -/

/-- Claim C1: the claim says N concurrent `likePost` calls yield
`likeCount == N` because the increment is a single atomic storage-level
operation.  The main handler (src/server.js:239-251) is fetch-then-save:
the schedule `lostUpdateSchedule` is a valid interleaving of two like
requests (each performs its read then its save, as the projections show),
yet it ends with `likes = 1`, not `2` — a lost update.  Serial execution of
the same two requests (last two conjuncts, both through the race model and
through `likeBiz` itself) does yield 2. -/
theorem c1_like_fetch_save_lost_update :
    thread1Events lostUpdateSchedule = [RaceEv.read1, RaceEv.save1] ∧
    thread2Events lostUpdateSchedule = [RaceEv.read2, RaceEv.save2] ∧
    (raceRun ⟨0, none, none⟩ lostUpdateSchedule).likes = 1 ∧
    (raceRun ⟨0, none, none⟩
      [RaceEv.read1, RaceEv.save1, RaceEv.read2, RaceEv.save2]).likes = 2 ∧
    (likeBiz (likeBiz [c1post] "p1").1 "p1").1 = [⟨"p1", "alice", "u1", "", 2, []⟩] := by
  decide

/-- Claim C2: the claim says a second signup with an existing username fails
with Conflict and creates nothing.  The part_000 signup
(src/unnamed/part_000:97-114) performs no uniqueness check: re-signing up
"alice" succeeds and leaves two users named "alice" in the store.  The main
variant (src/server.js:83-106) behaves as claimed: "Username already taken"
and an unchanged store (so the original hash is untouched). -/
theorem c2_duplicate_signup_not_conflict :
    (signupP0 aliceDb "alice" "pw2").success = true ∧
    (signupP0 aliceDb "alice" "pw2").message = none ∧
    ((signupP0 aliceDb "alice" "pw2").db.filter
      (fun u => u.username == "alice")).length = 2 ∧
    (signup aliceDb "alice" "pw2").message = some "Username already taken" ∧
    (signup aliceDb "alice" "pw2").db = aliceDb := by
  decide

/-- Claim C3: the claim says liking (or commenting on) a nonexistent post id
fails with NotFound and never reports success.  The part_000 like handler
(src/unnamed/part_000:188-191) reports `success:true` on a nonexistent id
while changing nothing — a silent no-op — both on an empty store and on a
store holding an unrelated image.  The main business handlers
(src/server.js:239-251, 267-284) do return NotFound. -/
theorem c3_like_nonexistent_silent_success :
    likeP0 [] "nonexistent-id" = ([], true) ∧
    likeP0 [c3img] "nonexistent-id" = ([c3img], true) ∧
    likeBiz [] "nonexistent-id" = ([], LikeResult.notFound) ∧
    addCommentBiz [] (some "alice") "nonexistent-id" "hello" 0 =
      ([], CommentResult.notFound) := by
  decide

/-- Claim C4: the claim says a failed login must produce the same response
message whether the username is unknown or the password is wrong.  The
second revision's login (src/server.js:455-484, likewise
src/unnamed/part_001:106-125) answers "Invalid username" in the first case
and "Invalid password" in the second — the two runs are distinguishable.
The main variant's login (src/server.js:108-125) answers identically in
both cases. -/
theorem c4_login_message_distinguishes :
    (loginV2 aliceDb "mallory" "whatever").message = some "Invalid username" ∧
    (loginV2 aliceDb "alice" "wrong").message = some "Invalid password" ∧
    (loginV2 aliceDb "mallory" "whatever").message ≠
      (loginV2 aliceDb "alice" "wrong").message ∧
    (login aliceDb "mallory" "whatever").message =
      (login aliceDb "alice" "wrong").message := by
  decide

/-- Claim C5: the claim says an upload with no valid session fails with
NotAuthenticated and persists nothing even though the collaborator already
accepted the file.  The part_000 upload (src/unnamed/part_000:155-175)
never consults the session: with no session and an accepted file it answers
`success:true` and persists an Image record.  The main variant
(src/server.js:161-182) rejects first and persists nothing. -/
theorem c5_unauthenticated_upload_persists :
    (uploadP0 [] none (some mediaFile)).success = true ∧
    (uploadP0 [] none (some mediaFile)).db =
      [⟨"", "https://res.cloudinary.example/img1.png", "image/png", 0, []⟩] ∧
    uploadMain [] none (some mediaFile) "" = ⟨[], false, some "Not logged in"⟩ := by
  decide

/-- Claim C6: the claim says a blank/whitespace-only comment fails with
EmptyComment and a non-blank one is appended last.  The part_001 comment
handler (src/unnamed/part_001:193-214) has no blank-text check: an
authenticated comment "  " on an existing post succeeds and the whitespace
comment is appended.  The main business handler (src/server.js:267-284)
rejects "  " leaving the post unchanged, and appends "hello" as the last
element with the prior comment preserved. -/
theorem c6_blank_comment_accepted_p1 :
    (commentP1 [p1Post] (some "alice") "p1" "  ").2 =
      CommentResult1.ok [⟨"bob", "first"⟩, ⟨"alice", "  "⟩] ∧
    addCommentBiz [bizPost] (some "alice") "p1" "  " 2 =
      ([bizPost], CommentResult.emptyComment) ∧
    (addCommentBiz [bizPost] (some "alice") "p1" "hello" 2).2 =
      CommentResult.ok [⟨"bob", "first", 1⟩, ⟨"alice", "hello", 2⟩] := by
  decide

/-- Claim C7: for every successful DM send and comment, the stored
sender/author equals the session claim's username, and the result is
independent of the client-supplied `:user1` path parameter that could name
a sender — two runs differing only in it are equal. -/
theorem c7_identity_from_session (db : List DMsg)
    (uname user1 user1' user2 msg : String) (now : Nat)
    (bdb : List BusinessPost) (postId text : String) (cs : List Comment)
    (hsend : (sendDM db (some uname) user1 user2 msg now).2 = SendResult.ok)
    (hcomment : (addCommentBiz bdb (some uname) postId text now).2 =
      CommentResult.ok cs) :
    (sendDM db (some uname) user1 user2 msg now).1 =
      db ++ [⟨uname, user2, msg, now⟩] ∧
    sendDM db (some uname) user1 user2 msg now =
      sendDM db (some uname) user1' user2 msg now ∧
    cs.getLast?.map Comment.user = some uname := by
  by_cases hm : (msg == "" || jsTrim msg == "") = true
  · simp [sendDM, hm] at hsend
  · rw [Bool.not_eq_true] at hm
    refine ⟨by simp [sendDM, hm], by simp [sendDM, hm], ?_⟩
    by_cases ht : (text == "" || jsTrim text == "") = true
    · simp [addCommentBiz, ht] at hcomment
    · rw [Bool.not_eq_true] at ht
      rcases hfind : bdb.find? (fun p => p.id == postId) with _ | post
      · simp [addCommentBiz, ht, hfind] at hcomment
      · simp [addCommentBiz, ht, hfind] at hcomment
        rw [← hcomment, List.getLast?_concat]
        rfl

/-- Witness for C7 at concrete inputs. -/
theorem c7_identity_from_session_witness :
    (sendDM [] (some "alice") "x" "bob" "hi" 1).1 =
      [] ++ [⟨"alice", "bob", "hi", 1⟩] ∧
    sendDM [] (some "alice") "x" "bob" "hi" 1 =
      sendDM [] (some "alice") "y" "bob" "hi" 1 ∧
    ([⟨"bob", "first", 1⟩, ⟨"alice", "yo", 1⟩] : List Comment).getLast?.map
      Comment.user = some "alice" :=
  c7_identity_from_session [] "alice" "x" "y" "bob" "hi" 1 [bizPost] "p1" "yo"
    [⟨"bob", "first", 1⟩, ⟨"alice", "yo", 1⟩] (by decide) (by decide)

/-- Claim C8: for every non-empty username and password and a state with no
user of that username, `signup` then `login` with the same credentials
succeeds and the session claim carries the signed-up username (round trip
through the bcrypt hash/verify pair). -/
theorem c8_signup_then_login (db : List User) (u p : String)
    (hu : (u == "") = false) (hp : (p == "") = false)
    (hfresh : db.find? (fun x => x.username == u) = none) :
    (signup db u p).sessionUser = some u ∧
    (login (signup db u p).db u p).success = true ∧
    (login (signup db u p).db u p).sessionUser = some u := by
  have hdb : (signup db u p).db = db ++ [⟨u, bcryptHash p⟩] := by
    simp [signup, hu, hp, hfresh]
  have hfind : (db ++ [(⟨u, bcryptHash p⟩ : User)]).find?
      (fun x => x.username == u) = some ⟨u, bcryptHash p⟩ := by
    rw [List.find?_append, hfresh]
    simp [List.find?]
  refine ⟨by simp [signup, hu, hp, hfresh], ?_, ?_⟩
  · rw [hdb]
    simp [login, hu, hp, hfind, bcryptCompare]
  · rw [hdb]
    simp [login, hu, hp, hfind, bcryptCompare]

/-- Witness for C8 at concrete inputs. -/
theorem c8_signup_then_login_witness :
    (signup [] "alice" "pw123").sessionUser = some "alice" ∧
    (login (signup [] "alice" "pw123").db "alice" "pw123").success = true ∧
    (login (signup [] "alice" "pw123").db "alice" "pw123").sessionUser =
      some "alice" :=
  c8_signup_then_login [] "alice" "pw123" (by decide) (by decide) rfl

/-- Inserting into the sorted list permutes to consing. -/
theorem insertByTimestamp_perm (m : DMsg) (l : List DMsg) :
    (insertByTimestamp m l).Perm (m :: l) := by
  induction l with
  | nil => exact List.Perm.refl _
  | cons x xs ih =>
    unfold insertByTimestamp
    by_cases h : m.timestamp < x.timestamp
    · rw [if_pos h]
    · rw [if_neg h]
      exact (ih.cons x).trans (List.Perm.swap m x xs)

/-- The sort permutes its input. -/
theorem sortByTimestamp_perm (l : List DMsg) : (sortByTimestamp l).Perm l := by
  induction l with
  | nil => exact List.Perm.refl _
  | cons m ms ih =>
    exact (insertByTimestamp_perm m (sortByTimestamp ms)).trans (ih.cons m)

/-- Insertion preserves sortedness by timestamp. -/
theorem insertByTimestamp_pairwise (m : DMsg) (l : List DMsg)
    (h : l.Pairwise tsLe) : (insertByTimestamp m l).Pairwise tsLe := by
  induction l with
  | nil => simp [insertByTimestamp, tsLe]
  | cons x xs ih =>
    rw [List.pairwise_cons] at h
    obtain ⟨hx, hxs⟩ := h
    unfold insertByTimestamp
    by_cases hlt : m.timestamp < x.timestamp
    · rw [if_pos hlt, List.pairwise_cons]
      refine ⟨?_, List.pairwise_cons.mpr ⟨hx, hxs⟩⟩
      intro y hy
      rcases List.mem_cons.mp hy with hy | hy
      · rw [hy]
        exact Nat.le_of_lt hlt
      · exact Nat.le_trans (Nat.le_of_lt hlt) (hx y hy)
    · rw [if_neg hlt, List.pairwise_cons]
      refine ⟨?_, ih hxs⟩
      intro y hy
      have hy' : y ∈ m :: xs := (insertByTimestamp_perm m xs).mem_iff.mp hy
      rcases List.mem_cons.mp hy' with hy' | hy'
      · rw [hy']
        exact Nat.le_of_not_lt hlt
      · exact hx y hy'

/-- The sort's output is ascending by timestamp. -/
theorem sortByTimestamp_pairwise (l : List DMsg) :
    (sortByTimestamp l).Pairwise tsLe := by
  induction l with
  | nil => exact List.Pairwise.nil
  | cons m ms ih => exact insertByTimestamp_pairwise m (sortByTimestamp ms) ih

/-- Claim C9: `history(A,B)` returns exactly the messages whose `{from,to}`
matches `{A,B}` in either direction — a permutation of the two-direction
filter, with membership characterised — ordered ascending by timestamp. -/
theorem c9_dm_history_pair_sorted (db : List DMsg) (s user1 user2 : String) :
    ∃ r, dmHistory db (some s) user1 user2 = some r ∧
      r.Perm (db.filter (dmMatches user1 user2)) ∧
      (∀ m, m ∈ r ↔ m ∈ db ∧ dmMatches user1 user2 m = true) ∧
      r.Pairwise tsLe := by
  refine ⟨sortByTimestamp (db.filter (dmMatches user1 user2)), rfl,
    sortByTimestamp_perm _, ?_, sortByTimestamp_pairwise _⟩
  intro m
  rw [(sortByTimestamp_perm _).mem_iff, List.mem_filter]

/-- Claim C10 (implicit): an authenticated POST to `/dm/:user1/:user2` by a
session user C stores a message from C to the `:user2` parameter; the
`:user1` parameter is not stored, so when C and the recipient both differ
from `:user1` the new message fails the history filter for the pair and
`history(user1, user2)` is unchanged by the send. -/
theorem c10_dm_recipient_is_user2 (db : List DMsg) (A B C msg : String)
    (now : Nat) (hmsg : (msg == "" || jsTrim msg == "") = false)
    (hCA : (C == A) = false) (hBA : (B == A) = false) :
    (sendDM db (some C) A B msg now).1 = db ++ [⟨C, B, msg, now⟩] ∧
    dmMatches A B ⟨C, B, msg, now⟩ = false ∧
    ∀ s, dmHistory ((sendDM db (some C) A B msg now).1) (some s) A B =
      dmHistory db (some s) A B := by
  have h1 : (sendDM db (some C) A B msg now).1 = db ++ [⟨C, B, msg, now⟩] := by
    simp [sendDM, hmsg]
  have h2 : dmMatches A B ⟨C, B, msg, now⟩ = false := by
    simp [dmMatches, hCA, hBA]
  refine ⟨h1, h2, fun s => ?_⟩
  rw [h1]
  simp [dmHistory, List.filter_append, List.filter, h2]

/-- Witness for C10 at concrete inputs. -/
theorem c10_dm_recipient_is_user2_witness :
    (sendDM [] (some "carol") "alice" "bob" "hi" 5).1 =
      [] ++ [⟨"carol", "bob", "hi", 5⟩] ∧
    dmMatches "alice" "bob" ⟨"carol", "bob", "hi", 5⟩ = false ∧
    dmHistory ((sendDM [] (some "carol") "alice" "bob" "hi" 5).1)
      (some "dave") "alice" "bob" = dmHistory [] (some "dave") "alice" "bob" := by
  have h := c10_dm_recipient_is_user2 [] "alice" "bob" "carol" "hi" 5
    (by decide) (by decide) (by decide)
  exact ⟨h.1, h.2.1, h.2.2 "dave"⟩

end ADVVOC
